import Mathlib

/-!
Shallow embedding of the driver-communication layer of Owlyshield
(`src/owlyshield_predict/src/driver_com.rs`) and of the kill-policy
selection (`src/owlyshield_predict/src/config.rs`).

Machine integers are modelled as `Nat` (the code only copies and compares
them; no overflowing arithmetic occurs on the paths verified here).
Raw kernel memory is modelled as total functions from addresses to values:
`CHeap` maps an address to the `CDriverMsg` record laid out there and
`WHeap` maps an address to one UTF-16 code unit.  Address `0` is the null
pointer.  The `f64` entropy field is only ever copied bit-for-bit, so it is
modelled as its 64-bit pattern (`Nat`).  Rust panics are modelled as
`Option.none` (for the buffer encoder) or as an explicit `panicked`
outcome (for `get_irp`).
-/

namespace Owlyshield

/-- A raw pointer; `0` is the null pointer. -/
abbrev Addr := Nat

/-- Rust `IrpMajorOp` from driver_com.rs. -/
inductive IrpMajorOp where
  | IrpNone
  | IrpRead
  | IrpWrite
  | IrpSetInfo
  | IrpCreate
  | IrpCleanUp
deriving DecidableEq, Repr

/-- Rust `IrpMajorOp::from_byte`, translated match arm by match arm from
driver_com.rs lines 71-81. -/
def IrpMajorOp.from_byte (b : Nat) : IrpMajorOp :=
  match b with
  | 0 => IrpMajorOp.IrpNone
  | 1 => IrpMajorOp.IrpRead
  | 2 => IrpMajorOp.IrpWrite
  | 3 => IrpMajorOp.IrpSetInfo
  | 4 => IrpMajorOp.IrpCreate
  | 5 => IrpMajorOp.IrpCreate
  | _ => IrpMajorOp.IrpNone

/-- Rust `KillPolicy` from config.rs. -/
inductive KillPolicy where
  | Suspend
  | Kill
deriving DecidableEq, Repr

/-- Rust `Config::get_kill_policy` (config.rs lines 69-75), as a function of the
configured `KILL_POLICY` registry string. -/
def get_kill_policy (s : String) : KillPolicy :=
  match s with
  | "KILL" => KillPolicy.Kill
  | "SUSPEND" => KillPolicy.Suspend
  | _ => KillPolicy.Kill

/-- Rust `FILE_ID_128` (Win32): 16 identifier bytes. -/
structure FILE_ID_128 where
  Identifier : List Nat
deriving DecidableEq, Repr

/-- Rust `FILE_ID_INFO` (Win32): volume serial number plus file id. -/
structure FILE_ID_INFO where
  VolumeSerialNumber : Nat
  FileId : FILE_ID_128
deriving DecidableEq, Repr

/-- Rust `UnicodeString` from driver_com.rs: a length-prefixed UTF-16 span.
`length` counts code units, `buffer` is the address of the first one. -/
structure UnicodeString where
  length : Nat
  maximum_length : Nat
  buffer : Addr
deriving DecidableEq, Repr

/-- Rust `CDriverMsg` from driver_com.rs: the raw, driver-owned event record.
`next` is the forward link (`0` terminates the list). -/
structure CDriverMsg where
  extension : List Nat
  file_id : FILE_ID_INFO
  mem_sized_used : Nat
  entropy : Nat
  pid : Nat
  irp_op : Nat
  is_entropy_calc : Nat
  file_change : Nat
  file_location_info : Nat
  filepath : UnicodeString
  gid : Nat
  next : Addr
deriving DecidableEq, Repr

/-- Rust `ReplyIrp` from driver_com.rs: the reply header. -/
structure ReplyIrp where
  data_size : Nat
  data : Addr
  num_ops : Nat
deriving DecidableEq, Repr

/-- Raw memory holding `CDriverMsg` records, indexed by address. -/
abbrev CHeap := Addr → CDriverMsg

/-- Raw memory holding UTF-16 code units, indexed by address. -/
abbrev WHeap := Addr → Nat

/-- The slice `std::slice::from_raw_parts(self.buffer, self.length)` read
from the word heap: the `length` code units starting at `buffer`. -/
def wordsOf (w : WHeap) (u : UnicodeString) : List Nat :=
  (List.range u.length).map (fun i => w (u.buffer + i))

/-- The `first_zero_index` loop of `UnicodeString::to_string`
(driver_com.rs lines 372-378): starts at 0, scans for the first zero code
unit and stops there; if no zero occurs it is left at its initial value 0. -/
def fzIdx : List Nat → Nat → Nat
  | [], _ => 0
  | c :: rest, i => if c = 0 then i else fzIdx rest (i + 1)

/-- The U+FFFD replacement character produced by lossy UTF-16 decoding. -/
def replacementChar : Char := Char.ofNat 0xFFFD

/-- Rust `String::from_utf16_lossy`: UTF-16 decoding where a valid surrogate
pair yields one supplementary code point and any unpaired surrogate yields
U+FFFD. -/
def decodeUtf16Lossy : List Nat → List Char
  | [] => []
  | u :: rest =>
    if u < 0xD800 then Char.ofNat u :: decodeUtf16Lossy rest
    else if 0xE000 ≤ u then Char.ofNat u :: decodeUtf16Lossy rest
    else if u < 0xDC00 then
      match rest with
      | [] => [replacementChar]
      | u2 :: rest2 =>
        if 0xDC00 ≤ u2 ∧ u2 < 0xE000 then
          Char.ofNat (0x10000 + (u - 0xD800) * 0x400 + (u2 - 0xDC00))
            :: decodeUtf16Lossy rest2
        else replacementChar :: decodeUtf16Lossy (u2 :: rest2)
    else replacementChar :: decodeUtf16Lossy rest

/-- Rust `UnicodeString::to_string` (driver_com.rs lines 369-381): read the
`length`-code-unit slice, find the first zero with the scanning loop, and
lossily decode the slice strictly before that index. -/
def UnicodeString.to_string (w : WHeap) (u : UnicodeString) : String :=
  let str_slice := wordsOf w u
  String.mk (decodeUtf16Lossy (str_slice.take (fzIdx str_slice 0)))

/-- Rust `RuntimeFeatures` from driver_com.rs (`PathBuf` modelled as `String`). -/
structure RuntimeFeatures where
  exepath : String
  exe_still_exists : Bool
deriving DecidableEq, Repr

/-- Rust `RuntimeFeatures::new` (driver_com.rs lines 424-429). -/
def RuntimeFeatures.new : RuntimeFeatures :=
  { exepath := "", exe_still_exists := true }

/-- Rust `DriverMsg` from driver_com.rs: the owned event record.  All fields are
plain values; in particular `filepathstr` is an owned `String` and there is
no field of type `Addr`. -/
structure DriverMsg where
  extension : List Nat
  file_id_vsn : Nat
  file_id_id : List Nat
  mem_sized_used : Nat
  entropy : Nat
  pid : Nat
  irp_op : Nat
  is_entropy_calc : Nat
  file_change : Nat
  file_location_info : Nat
  filepathstr : String
  gid : Nat
  runtime_features : RuntimeFeatures
deriving DecidableEq, Repr

/-- Rust `DriverMsg::from` (driver_com.rs lines 404-420): copy every fixed field
by value, decode the path span into an owned string, attach fresh runtime
features. -/
def DriverMsg.from (w : WHeap) (c : CDriverMsg) : DriverMsg :=
  { extension := c.extension
    file_id_vsn := c.file_id.VolumeSerialNumber
    file_id_id := c.file_id.FileId.Identifier
    mem_sized_used := c.mem_sized_used
    entropy := c.entropy
    pid := c.pid
    irp_op := c.irp_op
    is_entropy_calc := c.is_entropy_calc
    file_change := c.file_change
    file_location_info := c.file_location_info
    filepathstr := UnicodeString.to_string w c.filepath
    gid := c.gid
    runtime_features := RuntimeFeatures.new }

/-- The `for _ in 1..(self.num_ops)` loop body of
`ReplyIrp::unpack_drivermsg` (driver_com.rs lines 391-397): with `fuel`
remaining iterations, stop if the current record's link is null, otherwise
follow the link, collect the record there, and continue. -/
def unpackLoop (h : CHeap) : CDriverMsg → Nat → List CDriverMsg
  | _, 0 => []
  | msg, fuel + 1 =>
    if msg.next = 0 then []
    else
      let m2 := h msg.next
      m2 :: unpackLoop h m2 fuel

/-- Rust `ReplyIrp::unpack_drivermsg` (driver_com.rs lines 386-400): the record
behind `data` is dereferenced and collected unconditionally, then the loop
runs for `1..num_ops`, i.e. `num_ops - 1` further iterations. -/
def unpack_drivermsg (h : CHeap) (irp : ReplyIrp) : List CDriverMsg :=
  let msg := h irp.data
  msg :: unpackLoop h msg (irp.num_ops - 1)

/-- The unpack-then-own pipeline: `CDriverMsgs::new` collects the raw
records via `unpack_drivermsg` and each is converted by `DriverMsg::from`. -/
def owned_records (h : CHeap) (w : WHeap) (irp : ReplyIrp) : List DriverMsg :=
  (unpack_drivermsg h irp).map (DriverMsg.from w)

/-- Rust `ComMessageType` from driver_com.rs (declaration order fixes the
discriminants `0..4`). -/
inductive ComMessageType where
  | MessageAddScanDirectory
  | MessageRemScanDirectory
  | MessageGetOps
  | MessageSetPid
  | MessageKillGid
deriving DecidableEq, Repr

/-- The Rust `as c_ulong` cast of a `ComMessageType` discriminant. -/
def ComMessageType.toUlong : ComMessageType → Nat
  | ComMessageType.MessageAddScanDirectory => 0
  | ComMessageType.MessageRemScanDirectory => 1
  | ComMessageType.MessageGetOps => 2
  | ComMessageType.MessageSetPid => 3
  | ComMessageType.MessageKillGid => 4

/-- Rust `ComMessage` from driver_com.rs: the outbound command record.  The
`path` field is the fixed 520-code-unit buffer, modelled as a list of
length 520. -/
structure ComMessage where
  type : Nat
  pid : Nat
  gid : Nat
  path : List Nat
deriving DecidableEq, Repr

/-- The `for (i, c) in ... .enumerate()` write loop of
`Driver::string_to_commessage_buffer` (driver_com.rs lines 202-204):
writes the given code units at consecutive indices starting at `i`;
`buf[i]` with `i` out of bounds is a Rust panic, modelled as `none`. -/
def writeAll (buf : List Nat) (i : Nat) : List Nat → Option (List Nat)
  | [] => some buf
  | c :: rest =>
    if i < buf.length then writeAll (buf.set i c) (i + 1) rest
    else none

/-- Rust `Driver::string_to_commessage_buffer` (driver_com.rs lines 199-206) on
the UTF-16 code units of the input string (terminator excluded).
`U16CString::from_str(..).unwrap()` panics on an interior nul (`none`);
otherwise the units followed by the nul terminator are written into a
zeroed 520-slot buffer, panicking (`none`) if they do not fit. -/
def string_to_commessage_buffer (units : List Nat) : Option (List Nat) :=
  if 0 ∈ units then none
  else writeAll (List.replicate 520 0) 0 (units ++ [0])

/-- Rust `Driver::build_irp_msg` (driver_com.rs lines 209-216). -/
def build_irp_msg (commsgtype : ComMessageType) (pid : Nat) (gid : Nat)
    (path : List Nat) : Option ComMessage :=
  (string_to_commessage_buffer path).map fun buf =>
    { type := commsgtype.toUlong, pid := pid, gid := gid, path := buf }

/-- The UTF-16 code units of the literal `\Device\harddiskVolume` used by
`Driver::driver_set_app_pid` (driver_com.rs line 94). -/
def devicePathUnits : List Nat :=
  [92, 68, 101, 118, 105, 99, 101, 92, 104, 97, 114, 100, 100, 105, 115,
   107, 86, 111, 108, 117, 109, 101]

/-- The `ComMessage` built by `Driver::driver_set_app_pid`
(driver_com.rs lines 93-101): type `MessageSetPid`, the current pid, the
literal gid constant `140713315094899`, and the buffer encoding of
`\Device\harddiskVolume`. -/
def driver_set_app_pid_msg (pid : Nat) : Option ComMessage :=
  (string_to_commessage_buffer devicePathUnits).map fun buf =>
    { type := ComMessageType.MessageSetPid.toUlong, pid := pid,
      gid := 140713315094899, path := buf }

/-- The `ComMessage` built by `Driver::try_kill` (driver_com.rs lines
174-179): type `MessageKillGid`, pid left at 0, the target gid, and a
zero-filled path buffer. -/
def try_kill_msg (gid : Nat) : ComMessage :=
  { type := ComMessageType.MessageKillGid.toUlong, pid := 0, gid := gid,
    path := List.replicate 520 0 }

/-- Rust `HRESULT` (windows crate): a wrapped raw 32-bit status code. -/
structure HRESULT where
  value : Nat
deriving DecidableEq, Repr

/-- Rust `Driver::try_kill` (driver_com.rs lines 173-197) as a function of the
driver's response to the single `FilterSendMessage` call carrying
`try_kill_msg`: a transport error propagates through `?` unchanged; a
transport success returns `Ok(HRESULT(res))` with the raw status code
`res` uninterpreted. -/
def try_kill (resp : Except Nat Nat) : Except Nat HRESULT :=
  match resp with
  | Except.error e => Except.error e
  | Except.ok res => Except.ok { value := res }

/-- What a call to `Driver::get_irp` does after the transport call: either
it returns an `Option ReplyIrp` normally, or it panics (the function never
returns an error value — its Rust type `Option<ReplyIrp>` has no error
channel). -/
inductive PollOutcome where
  | ret : Option ReplyIrp → PollOutcome
  | panicked : String → PollOutcome
deriving DecidableEq, Repr

/-- Whether a `PollOutcome` is a normal return, i.e. a value actually
delivered to the caller. -/
def PollOutcome.isReturn : PollOutcome → Bool
  | PollOutcome.ret _ => true
  | PollOutcome.panicked _ => false

/-- Rust `Driver::get_irp` (driver_com.rs lines 142-169) as a function of the
single `FilterSendMessage` transport call's outcome.  On a transport error
the `.expect(..)` panics with the fixed message; on success, `tmp` is the
byte count written and `buf` the `ReplyIrp` read back from the scratch
buffer: `tmp ≠ 0` yields `Some`, `tmp = 0` yields `None`.  The transport
is invoked exactly once — the model consumes one outcome and never
retries. -/
def get_irp (transport : Except Nat (Nat × ReplyIrp)) : PollOutcome :=
  match transport with
  | Except.error _ => PollOutcome.panicked "Cannot get driver message from driver"
  | Except.ok (tmp, buf) =>
    if tmp ≠ 0 then PollOutcome.ret (some buf) else PollOutcome.ret none

/-- A reply buffer holding a well-formed linked list: `Chain h a recs`
says that the records `recs` lie at the non-null addresses reachable from
`a` by the `next` links, in link order, and that the last record's link is
null. -/
inductive Chain (h : CHeap) : Addr → List CDriverMsg → Prop
  | last (a : Addr) (ha : a ≠ 0) (hnext : (h a).next = 0) : Chain h a [h a]
  | cons (a : Addr) (rest : List CDriverMsg) (ha : a ≠ 0) (hnz : (h a).next ≠ 0)
      (hrest : Chain h ((h a).next) rest) : Chain h a (h a :: rest)

/-- The fixed (non-path, non-link) fields of an owned record equal, by
value, those of a raw record. -/
def fixed_fields_eq (d : DriverMsg) (c : CDriverMsg) : Prop :=
  d.extension = c.extension ∧
  d.file_id_vsn = c.file_id.VolumeSerialNumber ∧
  d.file_id_id = c.file_id.FileId.Identifier ∧
  d.mem_sized_used = c.mem_sized_used ∧
  d.entropy = c.entropy ∧
  d.pid = c.pid ∧
  d.irp_op = c.irp_op ∧
  d.is_entropy_calc = c.is_entropy_calc ∧
  d.file_change = c.file_change ∧
  d.file_location_info = c.file_location_info ∧
  d.gid = c.gid

/-- A concrete raw record with a null link, used as test input. -/
def cmsg0 : CDriverMsg :=
  { extension := [], file_id := { VolumeSerialNumber := 0, FileId := { Identifier := [] } },
    mem_sized_used := 0, entropy := 0, pid := 0, irp_op := 0, is_entropy_calc := 0,
    file_change := 0, file_location_info := 0,
    filepath := { length := 0, maximum_length := 0, buffer := 0 }, gid := 0, next := 0 }

/-- A concrete record heap holding `cmsg0` everywhere. -/
def heap0 : CHeap := fun _ => cmsg0

/-- A concrete reply header announcing zero records. -/
def irp0 : ReplyIrp := { data_size := 64, data := 8, num_ops := 0 }

/-- Another concrete reply header announcing zero records. -/
def irp0b : ReplyIrp := { data_size := 0, data := 3, num_ops := 0 }

/-- First record of a concrete two-record linked list (it lives at address
1 and links to address 2). -/
def cmsgA : CDriverMsg :=
  { extension := [97, 98], file_id := { VolumeSerialNumber := 7, FileId := { Identifier := [1, 2] } },
    mem_sized_used := 3, entropy := 0, pid := 11, irp_op := 1, is_entropy_calc := 0,
    file_change := 2, file_location_info := 0,
    filepath := { length := 0, maximum_length := 0, buffer := 0 }, gid := 5, next := 2 }

/-- Second record of the concrete two-record linked list (it lives at
address 2; its link is null). -/
def cmsgB : CDriverMsg :=
  { extension := [99], file_id := { VolumeSerialNumber := 7, FileId := { Identifier := [3] } },
    mem_sized_used := 9, entropy := 1, pid := 12, irp_op := 2, is_entropy_calc := 1,
    file_change := 3, file_location_info := 1,
    filepath := { length := 0, maximum_length := 0, buffer := 0 }, gid := 5, next := 0 }

/-- A concrete record heap holding the two-record list `cmsgA → cmsgB`. -/
def heap1 : CHeap := fun a => if a = 1 then cmsgA else cmsgB

/-- A concrete reply header for the two-record list. -/
def irp1 : ReplyIrp := { data_size := 0, data := 1, num_ops := 2 }

/-- A concrete all-zero word heap. -/
def wzero : WHeap := fun _ => 0

/-- A concrete word heap holding the code units of `AB` (no zero) at
addresses 100 and 101. -/
def w4 : WHeap := fun a => if a = 100 then 65 else if a = 101 then 66 else 0

/-- A concrete two-code-unit path span located at address 100. -/
def u4 : UnicodeString := { length := 2, maximum_length := 2, buffer := 100 }

/-- Writing code units at consecutive indices into a buffer succeeds
exactly when they fit, and then replaces the written segment. -/
theorem writeAll_eq (l : List Nat) : ∀ (buf : List Nat) (i : Nat), i ≤ buf.length →
    writeAll buf i l = if i + l.length ≤ buf.length
      then some (buf.take i ++ l ++ buf.drop (i + l.length))
      else none := by
  induction l with
  | nil =>
    intro buf i hi
    simp [writeAll, hi, List.take_append_drop]
  | cons c rest ih =>
    intro buf i hi
    by_cases hlt : i < buf.length
    · have hset : (buf.set i c).length = buf.length := by simp
      rw [writeAll, if_pos hlt, ih (buf.set i c) (i + 1) (by omega), hset]
      by_cases hfit : i + (c :: rest).length ≤ buf.length
      · have hfit2 : i + 1 + rest.length ≤ buf.length := by
          simp at hfit; omega
        rw [if_pos hfit2, if_pos hfit]
        have hA : (List.take i buf).length = i := by simp; omega
        have hsplit : buf.set i c = List.take i buf ++ c :: List.drop (i + 1) buf :=
          List.set_eq_take_cons_drop c hlt
        have htake : List.take (i + 1) (buf.set i c) = List.take i buf ++ [c] := by
          rw [hsplit, List.take_append_eq_append_take,
            List.take_of_length_le (by rw [hA]; omega), hA]
          simp
        have hdrop : List.drop (i + 1 + rest.length) (buf.set i c)
            = List.drop (i + (c :: rest).length) buf := by
          rw [hsplit, List.drop_append_eq_append_drop,
            List.drop_of_length_le (by rw [hA]; omega), hA]
          have h2 : i + 1 + rest.length - i = rest.length + 1 := by omega
          rw [h2]
          simp [List.drop_drop]
          congr 1
          omega
        rw [htake, hdrop]
        simp
      · have hfit2 : ¬ (i + 1 + rest.length ≤ buf.length) := by
          simp at hfit ⊢; omega
        rw [if_neg hfit2, if_neg hfit]
    · have hz : ¬ (i + (c :: rest).length ≤ buf.length) := by
        simp; omega
      rw [writeAll, if_neg hlt, if_neg hz]

/-- Closed form of `string_to_commessage_buffer`: a nul-free code-unit
sequence that fits (terminator included) is stored at the front of the
520-slot zero buffer; a sequence that does not fit makes the encoder halt
(`none`). -/
theorem string_to_commessage_buffer_eq (units : List Nat) :
    string_to_commessage_buffer units =
      if 0 ∈ units then none
      else if units.length + 1 ≤ 520
        then some ((units ++ [0]) ++ List.replicate (520 - (units.length + 1)) 0)
        else none := by
  unfold string_to_commessage_buffer
  by_cases hz : 0 ∈ units
  · rw [if_pos hz, if_pos hz]
  · rw [if_neg hz, if_neg hz,
      writeAll_eq (units ++ [0]) (List.replicate 520 0) 0 (Nat.zero_le _)]
    have hlen1 : (units ++ [0]).length = units.length + 1 := by
      rw [List.length_append, List.length_cons, List.length_nil]
    have hlenr : (List.replicate 520 (0 : Nat)).length = 520 :=
      List.length_replicate 520 0
    rw [hlen1, hlenr, Nat.zero_add, List.take_zero, List.nil_append,
      List.drop_replicate]

/-- The `first_zero_index` scanning loop started at `i` returns `i` plus
the length of the zero-free head of the list when a zero occurs in it, and
its initial value `0` when no zero occurs. -/
theorem fzIdx_spec : ∀ (l : List Nat) (i : Nat),
    fzIdx l i = if 0 ∈ l then i + (l.takeWhile (fun c => c != 0)).length else 0 := by
  intro l
  induction l with
  | nil => intro i; simp [fzIdx]
  | cons c rest ih =>
    intro i
    by_cases hc : c = 0
    · subst hc; simp [fzIdx]
    · rw [fzIdx, if_neg hc, ih (i + 1)]
      by_cases hr : 0 ∈ rest
      · rw [if_pos hr, if_pos (by simp [hr])]
        simp [List.takeWhile_cons, hc]
        omega
      · rw [if_neg hr, if_neg (by simp [hr, Ne.symm hc])]

/-- Taking as many elements as the zero-free head is long recovers exactly
that head. -/
theorem take_length_takeWhile (p : Nat → Bool) :
    ∀ l : List Nat, l.take (l.takeWhile p).length = l.takeWhile p := by
  intro l
  induction l with
  | nil => rfl
  | cons c rest ih =>
    by_cases hp : p c
    · simp [List.takeWhile_cons, hp, ih]
    · simp [List.takeWhile_cons, hp]

/-- The slice prefix the `to_string` loop selects: everything strictly
before the first zero code unit, and nothing at all when the slice
contains no zero. -/
theorem take_fzIdx (l : List Nat) :
    l.take (fzIdx l 0) = if 0 ∈ l then l.takeWhile (fun c => c != 0) else [] := by
  rw [fzIdx_spec]
  by_cases h : 0 ∈ l
  · rw [if_pos h, if_pos h]
    simpa using take_length_takeWhile (fun c => c != 0) l
  · rw [if_neg h, if_neg h]
    simp

/-- On a well-formed chain whose length fits in `fuel + 1`, the unpack
loop collects exactly the chain's records. -/
theorem unpackLoop_chain (h : CHeap) (a : Addr) (recs : List CDriverMsg)
    (hc : Chain h a recs) :
    ∀ fuel, recs.length ≤ fuel + 1 → (h a) :: unpackLoop h (h a) fuel = recs := by
  induction hc with
  | last a ha hnext =>
    intro fuel _
    cases fuel with
    | zero => rfl
    | succ f => simp [unpackLoop, hnext]
  | cons a rest ha hnz hrest ih =>
    intro fuel hlen
    have hr1 : 1 ≤ rest.length := by cases hrest <;> simp
    cases fuel with
    | zero => simp only [List.length_cons] at hlen; omega
    | succ f =>
      simp only [unpackLoop, if_neg hnz]
      exact congrArg (List.cons (h a))
        (ih f (by simp only [List.length_cons] at hlen; omega))

/-- C1: for a reply buffer containing exactly N well-formed linked records
(1 ≤ N ≤ `num_ops`), `unpack_drivermsg` collects exactly those N raw
records in link order, the unpack-then-own pipeline produces exactly N
owned records obtained by `DriverMsg::from`, every owned record's fixed
fields equal by value those of the corresponding raw record, and the owned
records depend only on the code units actually read from the path spans —
they are plain values (`DriverMsg` has no address-typed field), so
corrupting or reusing the buffer after the conversion cannot change
them. -/
theorem unpack_owned_correct (h : CHeap) (w : WHeap) (irp : ReplyIrp)
    (recs : List CDriverMsg) (hc : Chain h irp.data recs)
    (hlen : recs.length ≤ irp.num_ops) :
    unpack_drivermsg h irp = recs ∧
    owned_records h w irp = recs.map (DriverMsg.from w) ∧
    (∀ c : CDriverMsg, fixed_fields_eq (DriverMsg.from w c) c) ∧
    (∀ w2 : WHeap,
      (∀ c ∈ recs, ∀ j < c.filepath.length,
        w2 (c.filepath.buffer + j) = w (c.filepath.buffer + j)) →
      owned_records h w2 irp = owned_records h w irp) := by
  have hpos : 1 ≤ recs.length := by cases hc <;> simp
  have hu : unpack_drivermsg h irp = recs := by
    unfold unpack_drivermsg
    exact unpackLoop_chain h irp.data recs hc (irp.num_ops - 1) (by omega)
  refine ⟨hu, by rw [owned_records, hu], ?_, ?_⟩
  · intro c
    exact ⟨rfl, rfl, rfl, rfl, rfl, rfl, rfl, rfl, rfl, rfl, rfl⟩
  · intro w2 hagree
    unfold owned_records
    rw [hu]
    apply List.map_congr_left
    intro c hcmem
    have hstr : UnicodeString.to_string w2 c.filepath
        = UnicodeString.to_string w c.filepath := by
      have hwords : wordsOf w2 c.filepath = wordsOf w c.filepath := by
        apply List.map_congr_left
        intro i hi
        exact hagree c hcmem i (List.mem_range.mp hi)
      unfold UnicodeString.to_string
      rw [hwords]
    simp [DriverMsg.from, hstr]

/-- Witness for C1 on the concrete two-record list `cmsgA → cmsgB`. -/
theorem unpack_owned_correct_witness :
    unpack_drivermsg heap1 irp1 = [cmsgA, cmsgB] ∧
    owned_records heap1 wzero irp1
      = [DriverMsg.from wzero cmsgA, DriverMsg.from wzero cmsgB] := by
  have hch : Chain heap1 1 [cmsgA, cmsgB] :=
    Chain.cons 1 [cmsgB] (by decide) (by decide)
      (Chain.last 2 (by decide) rfl)
  have h := unpack_owned_correct heap1 wzero irp1 [cmsgA, cmsgB] hch (by decide)
  exact ⟨h.1, by rw [h.2.1]; rfl⟩

/-- C2: the spec requires `unpack` of a reply whose `record_count` is 0 to
return an empty sequence, but the code dereferences and collects the first
record unconditionally before consulting the hop budget, so it returns a
one-element collection built from whatever memory `data` points at. -/
theorem unpack_zero_records_bug (h : CHeap) (irp : ReplyIrp)
    (hz : irp.num_ops = 0) :
    unpack_drivermsg h irp = [h irp.data] := by
  unfold unpack_drivermsg
  rw [hz]
  rfl

/-- Witness for C2 at a concrete zero-record reply header. -/
theorem unpack_zero_records_bug_witness :
    unpack_drivermsg heap0 irp0 = [cmsg0] :=
  unpack_zero_records_bug heap0 irp0 rfl

/-- C3: the spec requires the traversal to visit at most `record_count`
raw records, but on a reply with `record_count = 0` the code still visits
(and returns) one record, exceeding the hop budget. -/
theorem unpack_hop_budget_violated (h : CHeap) (irp : ReplyIrp)
    (hz : irp.num_ops = 0) :
    irp.num_ops < (unpack_drivermsg h irp).length := by
  rw [hz]
  unfold unpack_drivermsg
  simp

/-- Witness for C3 at a concrete zero-record reply header. -/
theorem unpack_hop_budget_violated_witness :
    irp0b.num_ops < (unpack_drivermsg heap0 irp0b).length :=
  unpack_hop_budget_violated heap0 irp0b rfl

/-- C4 counterexample: on the span `AB` (two code units, no zero), the
claim says the owned path is the decoding of the entire span, i.e. `AB`,
but `to_string` returns the empty string, because its scanning loop leaves
`first_zero_index` at its initial value 0 when no zero occurs. -/
theorem to_string_whole_span_cex :
    UnicodeString.to_string w4 u4 = "" ∧
    String.mk (decodeUtf16Lossy (wordsOf w4 u4)) = "AB" := by
  constructor <;> rfl

/-- C4 (amended): the owned path string equals the lossy UTF-16 decoding
of the span's longest zero-free head when the span contains a zero code
unit, and is empty when the span contains none — not the decoding of the
entire length-prefixed span. -/
theorem to_string_first_zero_prefix (w : WHeap) (u : UnicodeString) :
    UnicodeString.to_string w u =
      String.mk (decodeUtf16Lossy
        (if 0 ∈ wordsOf w u
          then (wordsOf w u).takeWhile (fun c => c != 0)
          else [])) := by
  show String.mk (decodeUtf16Lossy
      (List.take (fzIdx (wordsOf w u) 0) (wordsOf w u))) = _
  rw [take_fzIdx]

/-- C5: the operation-code decoder is total, but it does not implement the
documented table at byte 5: the code maps 5 to `IrpCreate` although the
record documentation (and the spec) fix 5 as CLEANUP, and the
`IrpCleanUp` variant is never produced; bytes 6 and above fall back to
`IrpNone` as claimed. -/
theorem from_byte_five_is_create :
    IrpMajorOp.from_byte 5 = IrpMajorOp.IrpCreate ∧
    IrpMajorOp.from_byte 5 ≠ IrpMajorOp.IrpCleanUp ∧
    IrpMajorOp.from_byte 6 = IrpMajorOp.IrpNone := by
  decide

/-- C6 counterexample: on a transport failure `get_irp` does not surface
any error value to the caller — it does not return at all (the `.expect`
panics), so the claim that a `TransportFailure` error is returned for the
caller to handle is false at this concrete failing transport call. -/
theorem get_irp_no_error_return_cex :
    PollOutcome.isReturn (get_irp (Except.error 1)) = false := rfl

/-- C6 (amended): when the transport call itself fails, `get_irp` panics
with the fixed message instead of returning; zero bytes written yields the
distinct `None` result and nonzero bytes yields `Some`; the single
transport outcome is consumed once, with no internal retry. -/
theorem get_irp_failure_panics (e tmp : Nat) (buf : ReplyIrp) (ht : tmp ≠ 0) :
    get_irp (Except.error e)
      = PollOutcome.panicked "Cannot get driver message from driver" ∧
    get_irp (Except.ok (0, buf)) = PollOutcome.ret none ∧
    get_irp (Except.ok (tmp, buf)) = PollOutcome.ret (some buf) := by
  refine ⟨rfl, rfl, ?_⟩
  simp [get_irp, ht]

/-- Witness for C6 (amended) at concrete transport outcomes. -/
theorem get_irp_failure_panics_witness :
    get_irp (Except.error 7)
      = PollOutcome.panicked "Cannot get driver message from driver" ∧
    get_irp (Except.ok (0, irp0)) = PollOutcome.ret none ∧
    get_irp (Except.ok (3, irp0)) = PollOutcome.ret (some irp0) :=
  get_irp_failure_panics 7 3 irp0 (by decide)

/-- C7: `try_kill` sends exactly one command whose kind is the kill-group
discriminant 4, whose pid is left at zero and whose gid is the target
family, with a zero-filled path buffer; the raw driver status code is
returned wrapped but uninterpreted, and a transport error is propagated as
an error result (no panic, no retry). -/
theorem try_kill_correct (gid res e : Nat) :
    (try_kill_msg gid).type = 4 ∧
    (try_kill_msg gid).pid = 0 ∧
    (try_kill_msg gid).gid = gid ∧
    (try_kill_msg gid).path = List.replicate 520 0 ∧
    try_kill (Except.ok res) = Except.ok { value := res } ∧
    try_kill (Except.error e) = Except.error e :=
  ⟨rfl, rfl, rfl, rfl, rfl, rfl⟩

/-- C8 counterexample: the register-pid command is not zero-filled in its
unused fields — its gid is the junk constant 140713315094899 and its path
buffer starts with the code unit 92 (a backslash), the encoding of
`\Device\harddiskVolume`. -/
theorem set_pid_msg_not_zero_filled_cex :
    (driver_set_app_pid_msg 42).map (fun m => (m.gid, m.path.headD 0))
      = some (140713315094899, 92) := by
  unfold driver_set_app_pid_msg
  rw [string_to_commessage_buffer_eq]
  rw [if_neg (by decide), if_pos (by decide)]
  rfl

/-- C8 (amended): the poll-events command zero-fills gid and the path
buffer, and the kill-group command zero-fills pid and the path buffer, but
the register-pid command does not zero-fill its unused fields: it sets gid
to the constant 140713315094899 and the path buffer to the encoding of
`\Device\harddiskVolume`. -/
theorem outbound_unused_fields (pid gid : Nat) :
    build_irp_msg ComMessageType.MessageGetOps pid 0 []
      = some { type := 2, pid := pid, gid := 0, path := List.replicate 520 0 } ∧
    (try_kill_msg gid).pid = 0 ∧
    (try_kill_msg gid).path = List.replicate 520 0 ∧
    (driver_set_app_pid_msg pid).map (fun m => m.gid) = some 140713315094899 ∧
    (driver_set_app_pid_msg pid).map (fun m => m.path.headD 0) = some 92 := by
  refine ⟨?_, rfl, rfl, ?_, ?_⟩
  · unfold build_irp_msg
    rw [string_to_commessage_buffer_eq]
    rw [if_neg (by decide), if_pos (by decide)]
    rfl
  · unfold driver_set_app_pid_msg
    rw [string_to_commessage_buffer_eq]
    rw [if_neg (by decide), if_pos (by decide)]
    rfl
  · unfold driver_set_app_pid_msg
    rw [string_to_commessage_buffer_eq]
    rw [if_neg (by decide), if_pos (by decide)]
    rfl

/-- C9: a nul-free path whose UTF-16 form including the terminator is
exactly the buffer's 520-code-unit capacity encodes with every code unit
(and the terminator) stored, without truncation; one code unit longer
makes the encoder halt with a failure rather than silently truncate. -/
theorem string_to_commessage_buffer_capacity (units : List Nat)
    (hnul : 0 ∉ units) :
    (units.length + 1 = 520 →
      string_to_commessage_buffer units = some (units ++ [0])) ∧
    (units.length + 1 = 521 →
      string_to_commessage_buffer units = none) := by
  constructor
  · intro h520
    rw [string_to_commessage_buffer_eq, if_neg hnul, if_pos (by omega), h520]
    simp
  · intro h521
    rw [string_to_commessage_buffer_eq, if_neg hnul, if_neg (by omega)]

/-- Witness for C9 at concrete inputs of 519 and 520 code units. -/
theorem string_to_commessage_buffer_capacity_witness :
    string_to_commessage_buffer (List.replicate 519 65)
      = some (List.replicate 519 65 ++ [0]) ∧
    string_to_commessage_buffer (List.replicate 520 65) = none := by
  have h519 : (0 : Nat) ∉ List.replicate 519 65 := by
    intro hm
    exact absurd (List.eq_of_mem_replicate hm) (by decide)
  have h520 : (0 : Nat) ∉ List.replicate 520 65 := by
    intro hm
    exact absurd (List.eq_of_mem_replicate hm) (by decide)
  constructor
  · exact (string_to_commessage_buffer_capacity (List.replicate 519 65)
      h519).1 (by rw [List.length_replicate])
  · exact (string_to_commessage_buffer_capacity (List.replicate 520 65)
      h520).2 (by rw [List.length_replicate])

/-- C10: `get_kill_policy` returns `Suspend` exactly when the configured
string is `SUSPEND`; `KILL` and every other string select `Kill`, the
destructive default. -/
theorem get_kill_policy_suspend_iff (s : String) :
    get_kill_policy s
      = if s = "SUSPEND" then KillPolicy.Suspend else KillPolicy.Kill := by
  unfold get_kill_policy
  split <;> simp_all

end Owlyshield
